import Mathlib

/-!
Verification of the streaming lifecycle and request dispatch logic of the
vimbax_camera ROS 2 node, a shallow embedding of
src/vimbax_camera/src/vimbax_camera_node.cpp.

External collaborators (the VmbC camera binding, the rclcpp executor, the
image transport publisher) are modelled at their interface boundary: a
camera call is an Except value carrying either a device error code or a
success payload, and the executor serializes exactly the callbacks that
share a mutually exclusive callback group.
-/

set_option autoImplicit false

namespace VimbaX

/-- Device error code from the VmbC binding, an opaque integer. -/
abbrev ErrorCode := Int

/-- VmbErrorSuccess, the success code of the VmbC binding. -/
def VmbErrorSuccess : ErrorCode := 0

/-! ### Graph monitor loop (initialize_graph_notify, lines 195-219)

The background thread wakes from wait_for_graph_change, and when
check_and_clear reports a graph change it compares the subscriber count
with the camera streaming flag and requests at most one transition. -/

/-- Stream transition requested by the node. -/
inductive StreamRequest where
  | start
  | stop
deriving DecidableEq, Repr

/-- One observation made by the graph notify loop on a wake: whether
check_and_clear reported a change, the subscriber count of the image
publisher, and the camera streaming flag. -/
structure GraphObs where
  changed : Bool
  numSubscribers : Nat
  streaming : Bool

/-- Body of one iteration of the graph notify loop (lines 204-210): on a
wake where a change occurred, request start when there are subscribers and
the camera is not streaming, request stop when there are no subscribers
and the camera is streaming, and otherwise request nothing. -/
def graph_notify_requests (o : GraphObs) : List StreamRequest :=
  if o.changed = true then
    if 0 < o.numSubscribers ∧ o.streaming = false then [.start]
    else if o.numSubscribers = 0 ∧ o.streaming = true then [.stop]
    else []
  else []

/-- Effect of a completed stream transition on the camera streaming flag. -/
def applyRequest (_streaming : Bool) : StreamRequest → Bool
  | .start => true
  | .stop => false

/-- Effect of a sequence of completed stream transitions on the camera
streaming flag. -/
def applyRequests (streaming : Bool) (rs : List StreamRequest) : Bool :=
  rs.foldl applyRequest streaming

/-- Claim C1: on every wake of the graph monitor loop where a
subscription graph change occurred, a positive subscriber count with the
camera stopped requests exactly one start, a zero subscriber count with
the camera streaming requests exactly one stop, every other case requests
nothing, and after the requested transitions complete a repetition of the
same observation requests nothing further. -/
theorem graph_monitor_exactly_one_transition (n : Nat) (s : Bool) :
    graph_notify_requests { changed := true, numSubscribers := n + 1, streaming := false }
      = [.start] ∧
    graph_notify_requests { changed := true, numSubscribers := 0, streaming := true }
      = [.stop] ∧
    graph_notify_requests { changed := true, numSubscribers := n + 1, streaming := true }
      = [] ∧
    graph_notify_requests { changed := true, numSubscribers := 0, streaming := false }
      = [] ∧
    graph_notify_requests { changed := false, numSubscribers := n, streaming := s }
      = [] ∧
    graph_notify_requests { changed := true, numSubscribers := n, streaming := applyRequests s (graph_notify_requests { changed := true, numSubscribers := n, streaming := s }) } = [] := by
  refine ⟨?_, ?_, ?_, ?_, ?_, ?_⟩ <;>
    cases s <;> cases n <;>
      simp [graph_notify_requests, applyRequests, applyRequest]

/-! ### Callback groups and stream transition call sites
(initialize_callback_groups, lines 221-248; initialize_services,
lines 719-746; initialize_graph_notify, lines 195-219) -/

/-- Callback group type of the rclcpp executor. -/
inductive CallbackGroupType where
  | Reentrant
  | MutuallyExclusive
deriving DecidableEq, Repr

/-- The four callback groups created by the node. -/
inductive CallbackGroup where
  | feature
  | settingsLoadSave
  | status
  | streamStartStop
deriving DecidableEq, Repr

/-- Type each callback group is created with (lines 223-241). -/
def callback_group_type : CallbackGroup → CallbackGroupType
  | .feature => .Reentrant
  | .settingsLoadSave => .MutuallyExclusive
  | .status => .Reentrant
  | .streamStartStop => .MutuallyExclusive

/-- Call sites in the node that request a stream transition. -/
inductive TransitionSite where
  | streamStartService
  | streamStopService
  | graphMonitorStart
  | graphMonitorStop
deriving DecidableEq, Repr

/-- Execution context of each stream transition call site, read off the
source: the stream_start and stream_stop services are registered with the
stream start stop callback group (lines 719-746), while the graph notify
lambda calls start_streaming and stop_streaming from its own raw thread
(lines 198-212), which belongs to no callback group and is not scheduled
by the executor. -/
def site_callback_group : TransitionSite → Option CallbackGroup
  | .streamStartService => some .streamStartStop
  | .streamStopService => some .streamStartStop
  | .graphMonitorStart => none
  | .graphMonitorStop => none

/-- Serialization provided by the rclcpp executor: two call sites are
mutually exclusive through the executor exactly when both run inside the
same mutually exclusive callback group. Code on the raw graph notify
thread is not scheduled by the executor, so the executor serializes it
against nothing. -/
def serialized_by_executor (a b : TransitionSite) : Bool :=
  match site_callback_group a, site_callback_group b with
  | some g1, some g2 => g1 == g2 && callback_group_type g1 == .MutuallyExclusive
  | _, _ => false

/-- Thread of control each transition site runs on: the service handlers
run on executor threads, while both monitor sites run inside the body of
the single graph notify loop (lines 199-212), one iteration at a time. -/
inductive ExecContext where
  | executor
  | graphNotifyThread
deriving DecidableEq, Repr

/-- Execution context of each stream transition call site. -/
def site_context : TransitionSite → ExecContext
  | .streamStartService => .executor
  | .streamStopService => .executor
  | .graphMonitorStart => .graphNotifyThread
  | .graphMonitorStop => .graphNotifyThread

/-- Complete serialization model of the stream transition call sites: two
sites can never overlap exactly when the executor serializes them through
a shared mutually exclusive callback group, or when both run in program
order on the single graph notify thread. The node takes no lock of its
own around start_streaming or stop_streaming, so the program has no
further source of mutual exclusion between these sites. -/
def mutually_exclusive_sites (a b : TransitionSite) : Bool :=
  serialized_by_executor a b ||
    (site_context a == .graphNotifyThread && site_context b == .graphNotifyThread)

/-- Claim C2 counterexample: the graph monitor start request and the
stream_start service handler are not mutually exclusive, because the
monitor calls start_streaming from a raw thread outside every callback
group and the node takes no lock; the claimed mutual exclusion of all
stream transitions fails at this concrete pair. -/
theorem monitor_start_not_serialized_with_stream_start :
    mutually_exclusive_sites .graphMonitorStart .streamStartService = false := by
  decide

/-- Claim C2 amended: the explicit stream_start and stream_stop service
handlers are mutually exclusive with each other through the shared
mutually exclusive callback group, and the two monitor call sites are
mutually exclusive with each other because both run sequentially on the
single graph notify thread; but neither monitor call site is serialized
against either explicit service handler, since the monitor thread belongs
to no callback group and the node takes no lock. -/
theorem stream_transition_serialization :
    mutually_exclusive_sites .streamStartService .streamStopService = true ∧
    mutually_exclusive_sites .streamStopService .streamStartService = true ∧
    mutually_exclusive_sites .graphMonitorStart .graphMonitorStop = true ∧
    mutually_exclusive_sites .graphMonitorStop .graphMonitorStart = true ∧
    site_callback_group .graphMonitorStart = none ∧
    site_callback_group .graphMonitorStop = none ∧
    mutually_exclusive_sites .graphMonitorStart .streamStartService = false ∧
    mutually_exclusive_sites .graphMonitorStart .streamStopService = false ∧
    mutually_exclusive_sites .graphMonitorStop .streamStartService = false ∧
    mutually_exclusive_sites .graphMonitorStop .streamStopService = false := by
  decide

/-! ### Frame callback (start_streaming, lines 753-779)

The lambda handed to camera start_streaming receives each delivered
frame. It computes the sequence id difference against a function local
static variable lastFrameId, initialized to minus one once per process
and never written by start_streaming itself, warns when the difference
exceeds one, unconditionally overwrites lastFrameId with the current id,
publishes the frame, and then requeues the frame buffer, logging a
nonzero requeue code. The publish call is an external call with no
surrounding try block, so a throwing publish leaves the rest of the
callback body unexecuted. -/

/-- Outcome of the external image publisher publish call. -/
inductive PubOutcome where
  | returns
  | throws
deriving DecidableEq, Repr

/-- Observable effects of one invocation of the frame callback. -/
structure FrameCbEffects where
  requeues : Nat
  warns : List Int
  requeueErrorLogs : Nat
  thrown : Bool
deriving DecidableEq, Repr

/-- One invocation of the frame callback (lines 759-775): given the value
of the static lastFrameId, the delivered frame id, the behaviour of the
publish call, and the code returned by the buffer requeue, it yields the
new value of lastFrameId and the observable effects. The id update at
line 767 precedes the publish call, so it happens even when publish
throws; the requeue at line 771 follows the publish call, so a throwing
publish skips it. -/
def frame_callback (lastFrameId frameId : Int) (pub : PubOutcome)
    (queueError : ErrorCode) : Int × FrameCbEffects :=
  let diff := frameId - lastFrameId
  let warns := if 1 < diff then [diff - 1] else []
  match pub with
  | .throws => (frameId, { requeues := 0, warns := warns, requeueErrorLogs := 0, thrown := true })
  | .returns =>
      (frameId,
        { requeues := 1, warns := warns,
          requeueErrorLogs := if queueError = VmbErrorSuccess then 0 else 1,
          thrown := false })

/-- Initial value of the static lastFrameId (line 760), assigned once per
process when the callback body first runs, and never reset afterwards. -/
def initialLastFrameId : Int := -1

/-- Sequence id tracking step of the frame callback: new lastFrameId and
the emitted missing frame warnings, for a frame whose delivery completes
normally. -/
def relayStep (last fid : Int) : Int × List Int :=
  let r := frame_callback last fid .returns VmbErrorSuccess
  (r.1, r.2.warns)

/-- Sequence id tracking over a list of delivered frame ids, threading
the static lastFrameId and collecting all warnings in order. -/
def relay_run (last : Int) : List Int → Int × List Int
  | [] => (last, [])
  | f :: fs =>
    let s := relayStep last f
    let r := relay_run s.1 fs
    (r.1, s.2 ++ r.2)

/-- Consecutive frame ids a, a+1, ..., a+n-1. -/
def consecIds (a : Int) : Nat → List Int
  | 0 => []
  | n + 1 => a :: consecIds (a + 1) n

/-- Claim C3 counterexample: when the publish call throws, the frame
buffer is not requeued at all, because the requeue sits after the publish
call with no surrounding try block; the claimed exactly one requeue even
when publication throws fails at this concrete input. -/
theorem throwing_publish_skips_requeue :
    (frame_callback 0 1 .throws VmbErrorSuccess).2.requeues ≠ 1 := by
  decide

/-- Claim C3 amended: when the publish call returns, the frame buffer is
requeued exactly once and a failing requeue code is only logged, never
escalated out of the callback; when the publish call throws, the requeue
is skipped. -/
theorem requeue_once_when_publish_returns (last fid : Int) (q : ErrorCode) :
    (frame_callback last fid .returns q).2.requeues = 1 ∧
    (frame_callback last fid .returns q).2.thrown = false ∧
    (frame_callback last fid .returns q).2.requeueErrorLogs
      = (if q = VmbErrorSuccess then 0 else 1) ∧
    (frame_callback last fid .throws q).2.requeues = 0 := by
  refine ⟨rfl, rfl, rfl, rfl⟩

/-- The frame callback always overwrites lastFrameId with the current
frame id. -/
theorem relayStep_fst (last fid : Int) : (relayStep last fid).1 = fid := rfl

/-- A frame id exactly one above the last seen id produces no warning. -/
theorem relayStep_succ (l : Int) : relayStep l (l + 1) = (l + 1, []) := by
  simp [relayStep, frame_callback]

/-- A frame id jump of k above the last seen id, with k greater than one,
produces exactly one warning reporting k minus one missing frames. -/
theorem relayStep_jump (a k : Int) (hk : 1 < k) :
    relayStep a (a + k) = (a + k, [k - 1]) := by
  simp [relayStep, frame_callback, hk]

/-- Running the relay over consecutive ids starting one above the last
seen id produces no warnings and ends with the last id delivered. -/
theorem relay_run_consec (n : Nat) :
    ∀ l : Int, relay_run l (consecIds (l + 1) n) = (l + (n : Int), []) := by
  induction n with
  | zero =>
    intro l
    simp [consecIds, relay_run]
  | succ n ih =>
    intro l
    have h := ih (l + 1)
    simp only [consecIds, relay_run, relayStep_succ, h, List.nil_append]
    refine Prod.ext ?_ rfl
    push_cast
    ring

/-- Relay runs compose over list append, threading the last seen id. -/
theorem relay_run_append (xs ys : List Int) :
    ∀ l : Int, relay_run l (xs ++ ys)
      = ((relay_run (relay_run l xs).1 ys).1,
         (relay_run l xs).2 ++ (relay_run (relay_run l xs).1 ys).2) := by
  induction xs with
  | nil =>
    intro l
    simp [relay_run]
  | cons x xs ih =>
    intro l
    simp [relay_run, ih, List.append_assoc]

/-- Claim C4: consecutive gap free increasing sequence ids produce zero
missing frame diagnostics; a sequence id jump of k greater than one
produces exactly one diagnostic reporting k minus one missing frames,
also at the end of a gap free run; and the last seen sequence id is
updated to the current frame id in every case. -/
theorem frame_gap_diagnostics_correct (l k f : Int) (n : Nat) (hk : 1 < k) :
    relay_run l (consecIds (l + 1) n) = (l + (n : Int), []) ∧
    relayStep l (l + k) = (l + k, [k - 1]) ∧
    (relay_run l (consecIds (l + 1) n ++ [l + (n : Int) + k])).2 = [k - 1] ∧
    (relayStep l f).1 = f := by
  refine ⟨relay_run_consec n l, relayStep_jump l k hk, ?_, relayStep_fst l f⟩
  rw [relay_run_append, relay_run_consec n l]
  simp [relay_run, relayStep_jump (l + (n : Int)) k hk]

/-- Claim C4 witness: concrete run with three consecutive ids and a jump
of five. -/
theorem frame_gap_diagnostics_witness :
    relay_run 0 (consecIds (0 + 1) 3) = (0 + ((3 : Nat) : Int), []) ∧
    relayStep 0 (0 + 5) = (0 + 5, [5 - 1]) ∧
    (relay_run 0 (consecIds (0 + 1) 3 ++ [0 + ((3 : Nat) : Int) + 5])).2 = [5 - 1] ∧
    (relayStep 0 9).1 = 9 :=
  frame_gap_diagnostics_correct 0 5 9 3 (by decide)

/-- Claim C5 counterexample: lastFrameId is a function local static,
initialized once per process and not written by start_streaming, so a
second streaming session starts gap detection from the last id of the
previous session; delivering frame id five as the first frame of a
session produces different diagnostics depending on whether a previous
session delivered frame id ten, refuting the claim that diagnostics of a
session are never influenced by a previous session. -/
theorem last_frame_id_persists_across_sessions :
    (relay_run (relay_run initialLastFrameId [10]).1 [5]).2
      ≠ (relay_run initialLastFrameId [5]).2 := by
  decide

/-- Claim C5 amended: the last seen sequence id is process wide, set to
minus one once at process start and never reset when streaming starts, so
the first frame of a later session is diagnosed against the final id of
the previous session. -/
theorem last_frame_id_process_wide (a b : Int) (h : 1 < b - a) :
    (relay_run (relay_run initialLastFrameId [a]).1 [b]).2 = [b - a - 1] ∧
    (relay_run (relay_run initialLastFrameId [a]).1 [b]).1 = b := by
  refine ⟨?_, rfl⟩
  show (relay_run a [b]).2 = [b - a - 1]
  simp [relay_run, relayStep, frame_callback, h]

/-- Claim C5 amended witness: a first session ending at id zero and a
second session starting at id five yield the cross session diagnostic. -/
theorem last_frame_id_process_wide_witness :
    (relay_run (relay_run initialLastFrameId [(0 : Int)]).1 [5]).2 = [5 - 0 - 1] ∧
    (relay_run (relay_run initialLastFrameId [(0 : Int)]).1 [5]).1 = 5 :=
  last_frame_id_process_wide 0 5 (by decide)

/-- Claim C10: with the process wide sentinel minus one, the very first
frame delivered after process start with nonnegative sequence id k
produces a spurious diagnostic reporting k missing frames whenever k is
at least one, and produces no diagnostic exactly when k is zero; the last
seen id becomes k in either case. -/
theorem first_frame_spurious_gap (k : Int) (hk : 0 ≤ k) :
    (relayStep initialLastFrameId k).2 = (if 1 ≤ k then [k] else []) ∧
    (relayStep initialLastFrameId k).1 = k ∧
    ((relayStep initialLastFrameId k).2 = [] ↔ k = 0) := by
  have e : (relayStep initialLastFrameId k).2
      = (if 1 < k - (-1) then [k - (-1) - 1] else []) := rfl
  have hc : (1 < k - (-1)) ↔ (1 ≤ k) := by omega
  have e2 : (relayStep initialLastFrameId k).2 = (if 1 ≤ k then [k] else []) := by
    rw [e]
    by_cases hb : 1 ≤ k
    · rw [if_pos (hc.mpr hb), if_pos hb]
      norm_num
    · rw [if_neg (fun hx => hb (hc.mp hx)), if_neg hb]
  refine ⟨e2, rfl, ?_⟩
  rw [e2]
  by_cases hb : 1 ≤ k
  · rw [if_pos hb]
    constructor
    · intro hx
      exact absurd hx (by simp)
    · intro hx
      omega
  · rw [if_neg hb]
    constructor
    · intro _
      omega
    · intro _
      rfl

/-- Claim C10 witness: the first frame of the process with sequence id
three yields the spurious diagnostic of three missing frames. -/
theorem first_frame_spurious_gap_witness :
    (relayStep initialLastFrameId 3).2 = (if (1 : Int) ≤ 3 then [(3 : Int)] else []) ∧
    (relayStep initialLastFrameId 3).1 = 3 ∧
    ((relayStep initialLastFrameId 3).2 = [] ↔ (3 : Int) = 0) :=
  first_frame_spurious_gap 3 (by decide)

/-! ### Service handlers (initialize_services, lines 250-751)

Each service handler performs one camera call and fills a response: on
failure it copies the device error code into the response error field, on
success it copies the payload. A camera call is modelled as an Except
value, error carrying the device code. Response message fields default to
zero or empty as in the generated message types. -/

/-- Response of the FeatureIntGet service. -/
structure FeatureIntGetResponse where
  error : ErrorCode := 0
  value : Int := 0
deriving DecidableEq, Repr

/-- Handler of the features int_get service (lines 254-266). -/
def feature_int_get_handler (result : Except ErrorCode Int) : FeatureIntGetResponse :=
  match result with
  | .error e => { error := e }
  | .ok v => { value := v }

/-- Response of the FeatureIntSet service. -/
structure FeatureIntSetResponse where
  error : ErrorCode := 0
deriving DecidableEq, Repr

/-- Handler of the features int_set service (lines 270-280). -/
def feature_int_set_handler (result : Except ErrorCode Unit) : FeatureIntSetResponse :=
  match result with
  | .error e => { error := e }
  | .ok _ => {}

/-- Response of the SettingsLoadSave services. -/
structure SettingsLoadSaveResponse where
  error : ErrorCode := 0
deriving DecidableEq, Repr

/-- Handler of the settings save service (lines 654-664). -/
def settings_save_handler (result : Except ErrorCode Unit) : SettingsLoadSaveResponse :=
  match result with
  | .error e => { error := e }
  | .ok _ => {}

/-- Handler of the settings load service (lines 668-678). -/
def settings_load_handler (result : Except ErrorCode Unit) : SettingsLoadSaveResponse :=
  match result with
  | .error e => { error := e }
  | .ok _ => {}

/-- Camera info returned by camera_info_get, as consumed by the status
handler (lines 687-713). -/
structure CameraInfo where
  display_name : String
  model_name : String
  firmware_version : String
  device_id : String
  device_user_id : String
  device_serial_number : String
  interface_id : String
  transport_layer_id : String
  streaming : Bool
  width : Int
  height : Int
  frame_rate : Float
  pixel_format : String
  trigger_mode : String
  trigger_source : String
  ip_address : Option String
  mac_address : Option String

/-- Response of the Status service, fields defaulted as in the message. -/
structure StatusResponse where
  error : ErrorCode := 0
  display_name : String := ""
  model_name : String := ""
  device_firmware_version : String := ""
  device_id : String := ""
  device_user_id : String := ""
  device_serial_number : String := ""
  interface_id : String := ""
  transport_layer_id : String := ""
  streaming : Bool := false
  width : Int := 0
  height : Int := 0
  frame_rate : Float := 0
  pixel_format : String := ""
  trigger_mode : String := ""
  trigger_source : String := ""
  ip_address : String := ""
  mac_address : String := ""

/-- Handler of the status service (lines 682-715): forwards the error
code of a failed camera_info_get, otherwise copies every field, setting
the optional network identity fields only when the camera reports them. -/
def status_handler (result : Except ErrorCode CameraInfo) : StatusResponse :=
  match result with
  | .error e => { error := e }
  | .ok info =>
    let base : StatusResponse :=
      { display_name := info.display_name
        model_name := info.model_name
        device_firmware_version := info.firmware_version
        device_id := info.device_id
        device_user_id := info.device_user_id
        device_serial_number := info.device_serial_number
        interface_id := info.interface_id
        transport_layer_id := info.transport_layer_id
        streaming := info.streaming
        width := info.width
        height := info.height
        frame_rate := info.frame_rate
        pixel_format := info.pixel_format
        trigger_mode := info.trigger_mode
        trigger_source := info.trigger_source }
    let withIp : StatusResponse :=
      match info.ip_address with
      | some ip => { base with ip_address := ip }
      | none => base
    match info.mac_address with
    | some mac => { withIp with mac_address := mac }
    | none => withIp

/-- Response of the StreamStartStop services. -/
structure StreamStartStopResponse where
  error : ErrorCode := 0
deriving DecidableEq, Repr

/-- Handler of the stream_start service (lines 719-729): forwards the
result of start_streaming, which returns the camera start result. -/
def stream_start_handler (result : Except ErrorCode Unit) : StreamStartStopResponse :=
  match result with
  | .error e => { error := e }
  | .ok _ => {}

/-- Handler of the stream_stop service (lines 733-744): calls the camera
stop_streaming directly and copies a failure code into the response. -/
def stream_stop_handler (stopResult : Except ErrorCode Unit) : StreamStartStopResponse :=
  match stopResult with
  | .error e => { error := e }
  | .ok _ => {}

/-- The member function stop_streaming of the node (lines 781-786), used
by the graph monitor and by teardown: it calls the camera stop, discards
the result, and returns nothing, so no error reaches its caller. -/
def node_stop_streaming_result (_stopResult : Except ErrorCode Unit) : Option ErrorCode :=
  none

/-- Claim C6 counterexample: when the camera stop call fails with device
code forty two, the stream_stop service handler copies that code into the
response error field, so the operation does not always return success. -/
theorem stream_stop_service_propagates_error :
    (stream_stop_handler (.error 42)).error = 42 ∧ (42 : ErrorCode) ≠ 0 := by
  decide

/-- Claim C6 amended: the stream_stop service forwards a device stop
error verbatim into the response error field and reports success only
when the camera stop succeeds; only the internal stop path used by the
graph monitor and by teardown discards the device result. -/
theorem stream_stop_service_forwards_code (e : ErrorCode) (r : Except ErrorCode Unit) :
    stream_stop_handler (.error e) = { error := e } ∧
    stream_stop_handler (.ok ()) = { error := 0 } ∧
    node_stop_streaming_result r = none :=
  ⟨rfl, rfl, rfl⟩

/-- Claim C8: every modelled remote operation copies a device failure
code verbatim into the response error field, leaves the error field at
zero on success, and takes the success payload directly from the camera
result. -/
theorem handlers_forward_device_error_verbatim (e : ErrorCode) (v : Int) (info : CameraInfo) :
    (feature_int_get_handler (.error e)).error = e ∧
    feature_int_get_handler (.ok v) = { error := 0, value := v } ∧
    (feature_int_set_handler (.error e)).error = e ∧
    feature_int_set_handler (.ok ()) = { error := 0 } ∧
    (settings_save_handler (.error e)).error = e ∧
    settings_save_handler (.ok ()) = { error := 0 } ∧
    (settings_load_handler (.error e)).error = e ∧
    (stream_start_handler (.error e)).error = e ∧
    stream_start_handler (.ok ()) = { error := 0 } ∧
    (stream_stop_handler (.error e)).error = e ∧
    (status_handler (.error e)).error = e ∧
    (status_handler (.ok info)).error = 0 ∧
    (status_handler (.ok info)).display_name = info.display_name ∧
    (status_handler (.ok info)).streaming = info.streaming ∧
    (status_handler (.ok info)).frame_rate = info.frame_rate := by
  refine ⟨rfl, rfl, rfl, rfl, rfl, rfl, rfl, rfl, rfl, rfl, rfl, ?_, ?_, ?_, ?_⟩ <;>
    · rcases info with ⟨_, _, _, _, _, _, _, _, _, _, _, _, _, _, _, ip, mac⟩
      rcases ip <;> rcases mac <;> rfl

/-! ### Parameter gate and start_streaming buffer count
(initialize_parameters, lines 95-128; start_streaming, lines 753-779) -/

/-- Name of the buffer count parameter. -/
def parameter_buffer_count : String := "buffer_count"

/-- Result of the set parameters callback. -/
structure SetParametersResult where
  successful : Bool
  reason : String := ""
deriving DecidableEq, Repr

/-- The on set parameters callback (lines 111-125): it walks the
requested parameters and rejects the request at the first buffer count
parameter found while the camera is streaming; otherwise it accepts. -/
def on_set_parameters (isStreaming : Bool) : List String → SetParametersResult
  | [] => { successful := true }
  | p :: ps =>
    if p = parameter_buffer_count ∧ isStreaming = true then
      { successful := false, reason := "Buffer count change not supported while streaming" }
    else on_set_parameters isStreaming ps

/-- Parameter state of the node relevant to streaming. -/
structure NodeParams where
  buffer_count : Int
deriving DecidableEq, Repr

/-- One buffer count parameter update request: the rclcpp parameter
layer runs the validation callback and stores the new value only when
the callback accepts. -/
def set_buffer_count (isStreaming : Bool) (st : NodeParams) (v : Int) :
    NodeParams × SetParametersResult :=
  let res := on_set_parameters isStreaming [parameter_buffer_count]
  if res.successful = true then ({ buffer_count := v }, res) else (st, res)

/-- start_streaming reads the current buffer count parameter when it
starts the camera (line 755), so the value stored at the last accepted
update is the one used. -/
def start_streaming_buffer_count (st : NodeParams) : Int :=
  st.buffer_count

/-- A request that touches no buffer count parameter, or arrives while
the camera is not streaming, is accepted. -/
theorem on_set_parameters_not_streaming (ps : List String) :
    on_set_parameters false ps = { successful := true } := by
  induction ps with
  | nil => rfl
  | cons p ps ih => simpa [on_set_parameters] using ih

/-- Claim C7: a buffer count change is rejected with the explicit not
supported while streaming outcome whenever the camera is streaming, and
is accepted whenever it is not, in which case the next start uses the
new value. -/
theorem buffer_count_change_gating (ps : List String) (st : NodeParams) (v : Int) :
    on_set_parameters false ps = { successful := true } ∧
    on_set_parameters true [parameter_buffer_count]
      = { successful := false,
          reason := "Buffer count change not supported while streaming" } ∧
    set_buffer_count true st v
      = (st, { successful := false,
               reason := "Buffer count change not supported while streaming" }) ∧
    (set_buffer_count false st v).2 = { successful := true } ∧
    start_streaming_buffer_count (set_buffer_count false st v).1 = v := by
  refine ⟨on_set_parameters_not_streaming ps, rfl, rfl, rfl, rfl⟩

/-! ### Teardown (destructor of VimbaXCameraNode, lines 80-93) -/

/-- Steps performed by the node destructor. -/
inductive TeardownEvent where
  | setStopFlag
  | joinGraphNotifyThread
  | stopStreaming
  | resetCamera
deriving DecidableEq, Repr

/-- Event trace of the destructor (lines 80-93): store true into the stop
flag, join the graph notify thread when it exists, stop streaming when
the camera exists and is streaming, and reset the camera handle. -/
def destructor_events (hasThread hasCamera isStreaming : Bool) : List TeardownEvent :=
  [.setStopFlag]
    ++ (if hasThread = true then [.joinGraphNotifyThread] else [])
    ++ (if hasCamera = true ∧ isStreaming = true then [.stopStreaming] else [])
    ++ [.resetCamera]

/-- Claim C9: teardown raises the stop flag first and releases the camera
handle last; when the camera is streaming, streaming is stopped strictly
before the handle is released and after the monitor thread is joined;
when streaming is not active no stop is issued. -/
theorem teardown_order (ht hc strm : Bool) :
    (destructor_events ht hc strm).head? = some .setStopFlag ∧
    (destructor_events ht hc strm).getLast? = some .resetCamera ∧
    (destructor_events ht true true).indexOf TeardownEvent.stopStreaming
      < (destructor_events ht true true).indexOf TeardownEvent.resetCamera ∧
    TeardownEvent.stopStreaming ∉ destructor_events ht hc false ∧
    destructor_events true true true
      = [.setStopFlag, .joinGraphNotifyThread, .stopStreaming, .resetCamera] := by
  cases ht <;> cases hc <;> cases strm <;> decide

end VimbaX
